import Mathlib

/-!
Verification development for the review-to-action analysis pipeline
(src/nlp.py, src/scoring.py, src/app.py).

Machine floats of the Python source are modelled as exact rationals; the
decimal literals of the source denote the corresponding decimal rationals.
Python round(x, n) (banker's rounding) is modelled as round-half-even on
rationals.  External library components (sklearn TfidfVectorizer + KMeans,
VADER) are modelled as explicit function parameters; everything written in
the repository itself is translated directly.
-/

namespace ReviewToAction

/-- Python substring test helper: does the needle match at the head of the hay? -/
def subAt : List Char → List Char → Bool
  | [], _ => true
  | _ :: _, [] => false
  | a :: as, b :: bs => (a == b) && subAt as bs

/-- Python substring containment: `needle in hay` for contiguous character runs. -/
def hasSub (needle : List Char) : List Char → Bool
  | [] => subAt needle []
  | c :: cs => subAt needle (c :: cs) || hasSub needle cs

/-- Python str.lower applied to the characters of a string. -/
def lowerChars (s : String) : List Char :=
  s.data.map Char.toLower

/-- Python round-half-even of a rational to an integer (banker's rounding). -/
def roundHalfEven (x : ℚ) : ℤ :=
  let f : ℤ := x.floor
  let r : ℚ := x - (f : ℚ)
  if r < 1 / 2 then f
  else if 1 / 2 < r then f + 1
  else if f % 2 = 0 then f else f + 1

/-- Python round(x, d): round to d decimal places, half to even. -/
def roundTo (x : ℚ) (d : ℕ) : ℚ :=
  (roundHalfEven (x * (10 : ℚ) ^ d) : ℚ) / (10 : ℚ) ^ d

/-- Discrete sentiment labels of nlp.add_sentiment. -/
inductive SentimentLabel where
  | negative
  | neutral
  | positive
deriving DecidableEq

/-- Review row after add_sentiment: review_text plus the two derived columns.
The label is an Option because pd.cut yields NaN outside the outermost bins. -/
structure ScoredReview where
  review_text : String
  sentiment_compound : ℚ
  sentiment_label : Option SentimentLabel
deriving DecidableEq

/-- Columns of the clustered frame that scoring.compute_issue_table reads
(its docstring: df must have cluster, sentiment_compound, sentiment_label;
the label column is never used in the computation). -/
structure ClusteredReview where
  cluster : ℕ
  sentiment_compound : ℚ
deriving DecidableEq

/-- Binning of nlp.add_sentiment: pd.cut with bins [-1.01, -0.05, 0.05, 1.01]
and default right-closed intervals, labelled negative / neutral / positive. -/
def sentimentLabel (c : ℚ) : Option SentimentLabel :=
  if -(101 / 100) < c ∧ c ≤ -(5 / 100) then some SentimentLabel.negative
  else if -(5 / 100) < c ∧ c ≤ 5 / 100 then some SentimentLabel.neutral
  else if 5 / 100 < c ∧ c ≤ 101 / 100 then some SentimentLabel.positive
  else none

/-- Embedding of nlp.add_sentiment.  The VADER analyzer is an external
lexicon model, passed as the function computing the compound score of a
text; the rest is the source: attach the compound column and the pd.cut
label column to each row. -/
def add_sentiment (compound : String → ℚ) (texts : List String) : List ScoredReview :=
  texts.map (fun t => ⟨t, compound t, sentimentLabel (compound t)⟩)

/-- Abstract model of the sklearn components used by nlp.cluster_issues.
fitPredict takes the texts, the cluster count and the random seed and
returns one cluster id per text (TfidfVectorizer.fit_transform followed by
KMeans.fit_predict); keywordsOf takes the texts, the assignment and a
cluster id and returns the top TF-IDF terms of that cluster. -/
structure KMeansModel where
  fitPredict : List String → ℕ → ℕ → List ℕ
  keywordsOf : List String → List ℕ → ℕ → List String

/-- Clamp of nlp.cluster_issues line 30: n_clusters = max(2, min(n_clusters, max(2, len(texts)//3))). -/
def effectiveK (n_clusters n_texts : ℕ) : ℕ :=
  max 2 (min n_clusters (max 2 (n_texts / 3)))

/-- Embedding of nlp.cluster_issues.  The entropy argument models the
ambient random state the library would consult if no seed were given; the
source pins random_state=42, so entropy is never consulted.  Fewer than 5
texts short-circuits to a single cluster 0 with keywords ["mixed"]; an
empty cluster gets the defensive placeholder ["(empty)"]. -/
def cluster_issues (m : KMeansModel) (entropy : ℕ) (df : List ScoredReview)
    (n_clusters : ℕ) : List (ScoredReview × ℕ) × List (ℕ × List String) :=
  let texts := df.map (fun r => r.review_text)
  if texts.length < 5 then
    (df.map (fun r => (r, 0)), [(0, ["mixed"])])
  else
    let k := effectiveK n_clusters texts.length
    let clusters := m.fitPredict texts k 42
    let kws := (List.range k).map (fun c =>
      if clusters.count c = 0 then (c, ["(empty)"])
      else (c, m.keywordsOf texts clusters c))
    (df.zip clusters, kws)

/-- Ordered rule table ACTION_RULES of scoring.py: trigger words paired with
action text, first match wins. -/
def ACTION_RULES : List (List String × String) :=
  [(["wait", "line", "slow", "minutes"],
    "Reduce wait times: add staff at peak hours, simplify workflow, prep high-demand items."),
   (["rude", "attitude", "unfriendly"],
    "Improve service: quick staff coaching, greeting script, and manager follow-up on complaints."),
   (["dirty", "clean", "bathroom", "mess"],
    "Improve cleanliness: add cleaning checklist and assign ownership per shift."),
   (["price", "expensive", "cost"],
    "Address pricing: highlight value, add bundles, or adjust portion/quality messaging."),
   (["cold", "hot", "temperature"],
    "Fix temperature/quality: check holding times, packaging, and handoff process."),
   (["schedule", "appointment", "booking"],
    "Fix scheduling: tighten booking rules, add buffer time, and confirm appointments.")]

/-- Embedding of scoring.issue_name_from_keywords: join the first 3 keywords
with a comma, or the label General when there are none. -/
def issue_name_from_keywords (keywords : List String) : String :=
  if keywords = [] then "General"
  else String.intercalate ", " (keywords.take 3)

/-- Embedding of scoring.recommended_action: lower-case the space-joined
keywords, scan ACTION_RULES in order, return the first action whose trigger
list has a substring hit, else the generic fallback. -/
def recommended_action (keywords : List String) : String :=
  let kws := lowerChars (String.intercalate " " keywords)
  match ACTION_RULES.find? (fun rule => rule.1.any (fun t => hasSub t.data kws)) with
  | some rule => rule.2
  | none => "Review top quotes and implement a simple SOP change; measure results weekly."

/-- Rows of df belonging to one cluster id (the groupby group). -/
def memberRows (df : List ClusteredReview) (c : ℕ) : List ClusteredReview :=
  df.filter (fun r => r.cluster == c)

/-- Member count of a cluster: freq = len(sub). -/
def freqOf (df : List ClusteredReview) (c : ℕ) : ℕ :=
  (memberRows df c).length

/-- Guarded fraction of scoring.py line 34: freq / total if total else 0.0. -/
def freqPctOf (df : List ClusteredReview) (c : ℕ) : ℚ :=
  if df.length ≠ 0 then (freqOf df c : ℚ) / (df.length : ℚ) else 0

/-- Mean compound score of the cluster members (pandas Series.mean). -/
def avgOf (df : List ClusteredReview) (c : ℕ) : ℚ :=
  ((memberRows df c).map (fun r => r.sentiment_compound)).sum / (freqOf df c : ℚ)

/-- Severity map of scoring.py line 39 as a function of the mean compound. -/
def severityFromAvg (a : ℚ) : ℚ :=
  max 0 ((-a + 1) / 2)

/-- Severity of a cluster: max(0.0, (-avg_comp + 1) / 2). -/
def severityOf (df : List ClusteredReview) (c : ℕ) : ℚ :=
  severityFromAvg (avgOf df c)

/-- Operational keyword cues of scoring.py line 45 that raise ease to 0.75. -/
def easeKeywordCues : List String :=
  ["clean", "bathroom", "staff", "wait", "line", "schedule"]

/-- Keyword lookup cluster_keywords.get(cluster_id, []). -/
def keywordsFor (kw : List (ℕ × List String)) (c : ℕ) : List String :=
  (kw.lookup c).getD []

/-- Ease heuristic: 0.65, raised to 0.75 when an operational cue occurs as a
substring of the lower-cased space-joined keywords. -/
def easeOf (kw : List (ℕ × List String)) (c : ℕ) : ℚ :=
  if easeKeywordCues.any
      (fun t => hasSub t.data (lowerChars (String.intercalate " " (keywordsFor kw c)))) then
    75 / 100
  else 65 / 100

/-- Priority of scoring.py line 48:
(freq_pct * 100) * (severity * 100) * (ease * 100) / 10000, with freq_pct
the guarded raw fraction freq / total. -/
def priorityOf (df : List ClusteredReview) (kw : List (ℕ × List String)) (c : ℕ) : ℚ :=
  (freqPctOf df c * 100) * (severityOf df c * 100) * (easeOf kw c * 100) / 10000

/-- One output row of scoring.compute_issue_table. -/
structure IssueRow where
  cluster : ℕ
  issue_label : String
  frequency : ℕ
  frequency_pct : ℚ
  avg_sentiment : ℚ
  severity_score_0_1 : ℚ
  ease_to_fix_0_1 : ℚ
  priority_score : ℚ
  recommended_action : String
deriving DecidableEq

/-- Stable ascending insertion for natural numbers. -/
def natInsert (n : ℕ) : List ℕ → List ℕ
  | [] => [n]
  | m :: ms => if n ≤ m then n :: m :: ms else m :: natInsert n ms

/-- Ascending insertion sort for natural numbers. -/
def natSort : List ℕ → List ℕ
  | [] => []
  | x :: xs => natInsert x (natSort xs)

/-- Cluster ids present in df, each once, in ascending order: the iteration
order of df.groupby("cluster") (pandas groups sort by key). -/
def clusterIds (df : List ClusteredReview) : List ℕ :=
  natSort (df.map (fun r => r.cluster)).dedup

/-- Row dict appended for one cluster in the groupby loop of
scoring.compute_issue_table, with the rounded display fields of lines 50-60. -/
def mkRow (df : List ClusteredReview) (kw : List (ℕ × List String)) (c : ℕ) : IssueRow :=
  { cluster := c
    issue_label := issue_name_from_keywords (keywordsFor kw c)
    frequency := freqOf df c
    frequency_pct := roundTo (freqPctOf df c * 100) 1
    avg_sentiment := roundTo (avgOf df c) 3
    severity_score_0_1 := roundTo (severityOf df c) 3
    ease_to_fix_0_1 := roundTo (easeOf kw c) 3
    priority_score := roundTo (priorityOf df kw c) 2
    recommended_action := recommended_action (keywordsFor kw c) }

/-- Stable descending insertion on priority_score: the inserted row precedes
exactly the rows of strictly smaller score, so earlier rows win ties. -/
def insertRow (r : IssueRow) : List IssueRow → List IssueRow
  | [] => [r]
  | y :: ys => if y.priority_score ≤ r.priority_score then r :: y :: ys else y :: insertRow r ys

/-- Stable descending insertion sort on priority_score, the model of
DataFrame.sort_values("priority_score", ascending=False): pandas nargsort
reverses the column, runs an ascending argsort and reverses the indexer, so
for the small row counts produced here (numpy argsort falls back to a stable
insertion sort below 17 elements) ties keep their original order. -/
def sortRows : List IssueRow → List IssueRow
  | [] => []
  | x :: xs => insertRow x (sortRows xs)

/-- Row list accumulated by the groupby loop of scoring.compute_issue_table,
one row per present cluster id, in ascending cluster-id order. -/
def tableRows (df : List ClusteredReview) (kw : List (ℕ × List String)) : List IssueRow :=
  (clusterIds df).map (mkRow df kw)

/-- Embedding of scoring.compute_issue_table.  Rows are built per cluster in
ascending cluster-id order, then sorted by descending priority_score.  An
empty input yields no rows, and pd.DataFrame([]).sort_values("priority_score")
raises KeyError (the empty frame has no such column); the none result models
that raise. -/
def compute_issue_table (df : List ClusteredReview) (kw : List (ℕ × List String)) :
    Option (List IssueRow) :=
  if tableRows df kw = [] then none else some (sortRows (tableRows df kw))

/-- Outcome of the shared-analysis block of app.py main, lines 149-155:
either the pipeline ran, or it was skipped and every result set to None. -/
inductive AnalysisOutcome where
  | ran (clustered : List (ScoredReview × ℕ)) (keywords : List (ℕ × List String))
      (table : Option (List IssueRow))
  | skipped
deriving DecidableEq

/-- Projection of a clustered row onto the columns compute_issue_table reads. -/
def toClustered (p : ScoredReview × ℕ) : ClusteredReview :=
  ⟨p.2, p.1.sentiment_compound⟩

/-- Embedding of the shared-analysis gate of app.py main: with at least one
review run add_sentiment, cluster_issues and compute_issue_table; otherwise
skip the analysis (the source sets every derived value to None and the tabs
render an informational prompt instead). -/
def mainAnalysis (compound : String → ℚ) (m : KMeansModel) (entropy : ℕ)
    (reviews : List String) (n_clusters : ℕ) : AnalysisOutcome :=
  if 1 ≤ reviews.length then
    let scored := add_sentiment compound reviews
    let clustered := cluster_issues m entropy scored n_clusters
    AnalysisOutcome.ran clustered.1 clustered.2
      (compute_issue_table (clustered.1.map toClustered) clustered.2)
  else AnalysisOutcome.skipped

/-- Ordering the sorted issue table satisfies: descending priority_score, and
rows of equal priority_score in ascending cluster-id order. -/
def rowOrder (a b : IssueRow) : Prop :=
  b.priority_score ≤ a.priority_score ∧ (a.priority_score = b.priority_score → a.cluster < b.cluster)

/-- Priority formula transcribed from the words of the spec: frequency_pct is
the percentage frequency / total x 100 rounded to 1 decimal, and
priority_score is (frequency_pct x 100) x (severity x 100) x (ease x 100) /
10000 rounded to 2 decimals.  Kept for comparison against the source
formula, which uses the unrounded fraction freq / total in that slot. -/
def specPriority (freq total : ℕ) (severity ease : ℚ) : ℚ :=
  roundTo ((roundTo ((freq : ℚ) / (total : ℚ) * 100) 1 * 100)
    * (severity * 100) * (ease * 100) / 10000) 2

/-- Concrete stand-in for the sklearn stack: everything lands in cluster 0
and no keywords are extracted.  Used only to instantiate witnesses. -/
def constModel : KMeansModel :=
  ⟨fun ts _ _ => ts.map (fun _ => 0), fun _ _ _ => []⟩

/-- One-review fixture (below the clustering minimum). -/
def sampleSmall : List ScoredReview :=
  [⟨"This place is amazing, I love it!", 9 / 10, some SentimentLabel.positive⟩]

/-- Six-review fixture (above the clustering minimum). -/
def sampleSix : List ScoredReview :=
  [⟨"Waited 40 minutes for a table", -(6 / 10), some SentimentLabel.negative⟩,
   ⟨"Service was slow again", -(4 / 10), some SentimentLabel.negative⟩,
   ⟨"Staff was rude to me", -(5 / 10), some SentimentLabel.negative⟩,
   ⟨"Great food, very clean", 8 / 10, some SentimentLabel.positive⟩,
   ⟨"Loved the vibe", 7 / 10, some SentimentLabel.positive⟩,
   ⟨"Too expensive for what you get", -(2 / 10), some SentimentLabel.negative⟩]

/-- One-cluster fixture for the priority-formula claims. -/
def dfOne : List ClusteredReview := [⟨0, 0⟩]

/-- Two-cluster fixture with three reviews, exercising a non-terminating
decimal percentage (1/3). -/
def dfThree : List ClusteredReview := [⟨0, 0⟩, ⟨0, 0⟩, ⟨1, 0⟩]

/-- Membership in an insertion step is membership in the inserted row or the rest. -/
theorem mem_insertRow {r x : IssueRow} {l : List IssueRow} :
    r ∈ insertRow x l ↔ r = x ∨ r ∈ l := by
  induction l with
  | nil => simp [insertRow]
  | cons y ys ih =>
    unfold insertRow
    by_cases h : y.priority_score ≤ x.priority_score
    · rw [if_pos h]
      simp only [List.mem_cons]
    · rw [if_neg h]
      simp only [List.mem_cons, ih]
      tauto

/-- Sorting the rows preserves membership. -/
theorem mem_sortRows {r : IssueRow} {l : List IssueRow} :
    r ∈ sortRows l ↔ r ∈ l := by
  induction l with
  | nil => simp [sortRows]
  | cons x xs ih =>
    unfold sortRows
    rw [mem_insertRow, ih, List.mem_cons]

/-- Inserting a row whose cluster id is below every cluster id of an already
ordered list keeps the list ordered: the row lands before exactly the rows
of strictly smaller priority, so ties stay in cluster-id order. -/
theorem insertRow_pairwise {x : IssueRow} {l : List IssueRow}
    (hl : List.Pairwise rowOrder l) (hx : ∀ y ∈ l, x.cluster < y.cluster) :
    List.Pairwise rowOrder (insertRow x l) := by
  induction l with
  | nil => simp [insertRow]
  | cons y ys ih =>
    rw [List.pairwise_cons] at hl
    obtain ⟨hy, hys⟩ := hl
    unfold insertRow
    by_cases h : y.priority_score ≤ x.priority_score
    · rw [if_pos h]
      refine List.Pairwise.cons ?_ (List.Pairwise.cons hy hys)
      intro z hz
      rcases List.mem_cons.mp hz with rfl | hz
      · exact ⟨h, fun _ => hx z (List.mem_cons_self _ _)⟩
      · exact ⟨le_trans (hy z hz).1 h, fun _ => hx z (List.mem_cons_of_mem _ hz)⟩
    · rw [if_neg h]
      have hlt : x.priority_score < y.priority_score := not_le.mp h
      refine List.Pairwise.cons ?_ (ih hys (fun z hz => hx z (List.mem_cons_of_mem _ hz)))
      intro z hz
      rcases mem_insertRow.mp hz with rfl | hz
      · exact ⟨le_of_lt hlt, fun he => absurd he (ne_of_gt hlt)⟩
      · exact hy z hz

/-- The stable descending insertion sort of a list with strictly increasing
cluster ids is ordered by rowOrder. -/
theorem sortRows_pairwise {l : List IssueRow}
    (h : List.Pairwise (fun a b => a.cluster < b.cluster) l) :
    List.Pairwise rowOrder (sortRows l) := by
  induction l with
  | nil => simp [sortRows]
  | cons x xs ih =>
    rw [List.pairwise_cons] at h
    exact insertRow_pairwise (ih h.2) (fun y hy => h.1 y (mem_sortRows.mp hy))

/-- Inserting into the ascending sort permutes a cons. -/
theorem natInsert_perm (n : ℕ) (l : List ℕ) : List.Perm (natInsert n l) (n :: l) := by
  induction l with
  | nil => exact List.Perm.refl _
  | cons m ms ih =>
    unfold natInsert
    by_cases h : n ≤ m
    · rw [if_pos h]
    · rw [if_neg h]
      exact (ih.cons m).trans (List.Perm.swap n m ms)

/-- The ascending sort is a permutation of its input. -/
theorem natSort_perm (l : List ℕ) : List.Perm (natSort l) l := by
  induction l with
  | nil => exact List.Perm.refl _
  | cons x xs ih => exact (natInsert_perm x (natSort xs)).trans (ih.cons x)

/-- Insertion preserves ascending order. -/
theorem natInsert_sorted {n : ℕ} {l : List ℕ} (h : List.Pairwise (· ≤ ·) l) :
    List.Pairwise (· ≤ ·) (natInsert n l) := by
  induction l with
  | nil => simp [natInsert]
  | cons m ms ih =>
    rw [List.pairwise_cons] at h
    unfold natInsert
    by_cases hnm : n ≤ m
    · rw [if_pos hnm]
      refine List.Pairwise.cons ?_ (List.Pairwise.cons h.1 h.2)
      intro z hz
      rcases List.mem_cons.mp hz with rfl | hz
      · exact hnm
      · exact le_trans hnm (h.1 z hz)
    · rw [if_neg hnm]
      refine List.Pairwise.cons ?_ (ih h.2)
      intro z hz
      rcases List.mem_cons.mp ((natInsert_perm n ms).mem_iff.mp hz) with rfl | hz
      · exact le_of_lt (not_le.mp hnm)
      · exact h.1 z hz

/-- The ascending sort is sorted. -/
theorem natSort_sorted (l : List ℕ) : List.Pairwise (· ≤ ·) (natSort l) := by
  induction l with
  | nil => simp [natSort]
  | cons x xs ih => exact natInsert_sorted ih

/-- Present cluster ids are listed in strictly increasing order (groupby
iterates each key once, keys sorted). -/
theorem clusterIds_sorted (df : List ClusteredReview) :
    List.Pairwise (· < ·) (clusterIds df) := by
  have hs : List.Pairwise (· ≤ ·) (clusterIds df) := natSort_sorted _
  have hn : (clusterIds df).Nodup :=
    ((natSort_perm _).nodup_iff).mpr (List.nodup_dedup _)
  exact (hs.and hn).imp (fun h => lt_of_le_of_ne h.1 h.2)

/-- Pre-sort rows carry strictly increasing cluster ids. -/
theorem tableRows_cluster_lt (df : List ClusteredReview) (kw : List (ℕ × List String)) :
    List.Pairwise (fun a b => a.cluster < b.cluster) (tableRows df kw) := by
  unfold tableRows
  rw [List.pairwise_map]
  exact clusterIds_sorted df

/-- Every row of the returned table is the row built for some present cluster id. -/
theorem mem_table {df : List ClusteredReview} {kw : List (ℕ × List String)} {r : IssueRow}
    (h : r ∈ (compute_issue_table df kw).getD []) :
    ∃ c ∈ clusterIds df, mkRow df kw c = r := by
  unfold compute_issue_table at h
  by_cases he : tableRows df kw = []
  · rw [if_pos he] at h
    simp at h
  · rw [if_neg he, Option.getD_some] at h
    have hm := mem_sortRows.mp h
    unfold tableRows at hm
    exact List.mem_map.mp hm

unseal Rat.inv Rat.mul Rat.add Rat.sub in
/-- C1, counterexample: the claim computes priority_score as
(frequency_pct x 100) x (severity x 100) x (ease x 100) / 10000 with
frequency_pct the percentage rounded to 1 decimal.  For a single review in
one cluster the code produces 32.5 while the claimed formula gives 3250
(inflated a hundredfold), and for a cluster holding 1 of 3 reviews the code
produces 10.83 while even the un-inflated formula fed the rounded
percentage 33.3 gives 10.82: the code multiplies the unrounded fraction. -/
theorem C1_priority_formula_counterexample :
    ((compute_issue_table dfOne []).getD []).map (fun r => r.priority_score) = [65 / 2]
    ∧ specPriority 1 1 (1 / 2) (65 / 100) = 3250
    ∧ (65 / 2 : ℚ) ≠ 3250
    ∧ ((compute_issue_table dfThree []).getD []).map (fun r => r.priority_score)
        = [2167 / 100, 1083 / 100]
    ∧ roundTo (roundTo ((1 : ℚ) / 3 * 100) 1 * (1 / 2) * (65 / 100)) 2 = 1082 / 100
    ∧ (1082 / 100 : ℚ) ≠ 1083 / 100 := by
  decide

/-- C1, amended: every row's priority_score is round2 of
(frequency / total x 100) x severity x ease, with the UNROUNDED percentage;
equivalently round2 of (f x 100)(s x 100)(e x 100) / 10000 where f is the
raw fraction frequency / total.  The spec's rounded frequency_pct does not
enter the product. -/
theorem C1_priority_formula_amended (df : List ClusteredReview)
    (kw : List (ℕ × List String)) (r : IssueRow)
    (h : r ∈ (compute_issue_table df kw).getD []) :
    r.priority_score =
      roundTo ((r.frequency : ℚ) / (df.length : ℚ) * 100
        * severityOf df r.cluster * easeOf kw r.cluster) 2 := by
  obtain ⟨c, hc, rfl⟩ := mem_table h
  have hdf : df.length ≠ 0 := by
    intro h0
    rw [List.length_eq_zero] at h0
    rw [h0] at hc
    simp [clusterIds, natSort] at hc
  simp only [mkRow]
  congr 1
  unfold priorityOf freqPctOf
  rw [if_pos hdf]
  ring

unseal Rat.inv Rat.mul Rat.add Rat.sub in
/-- C1, witness: the amended formula evaluated on the one-review fixture. -/
theorem C1_priority_formula_witness :
    mkRow dfOne [] 0 ∈ (compute_issue_table dfOne []).getD []
    ∧ (mkRow dfOne [] 0).priority_score =
      roundTo (((mkRow dfOne [] 0).frequency : ℚ) / (dfOne.length : ℚ) * 100
        * severityOf dfOne (mkRow dfOne [] 0).cluster
        * easeOf [] (mkRow dfOne [] 0).cluster) 2 :=
  ⟨by decide, C1_priority_formula_amended dfOne [] (mkRow dfOne [] 0) (by decide)⟩

unseal Rat.inv Rat.mul Rat.add Rat.sub in
/-- C2, counterexample: a review text whose compound score is exactly 0.05
is labelled neutral by the code (pd.cut bins are right-closed), not positive
as the claim states. -/
theorem C2_label_boundary_counterexample :
    sentimentLabel (5 / 100) = some SentimentLabel.neutral
    ∧ (add_sentiment (fun _ => 5 / 100) ["x"]).map (fun r => r.sentiment_label)
        = [some SentimentLabel.neutral]
    ∧ some SentimentLabel.neutral ≠ some SentimentLabel.positive := by
  decide

/-- C2, amended: for compound scores in [-1, 1] the label thresholds are
compound <= -0.05 negative, -0.05 < compound <= 0.05 neutral, and
compound > 0.05 positive: the +0.05 boundary is inclusive on the neutral
side, not the positive side. -/
theorem C2_label_thresholds_amended (c : ℚ) (h1 : -1 ≤ c) (h2 : c ≤ 1) :
    (c ≤ -(5 / 100) → sentimentLabel c = some SentimentLabel.negative)
    ∧ (-(5 / 100) < c → c ≤ 5 / 100 → sentimentLabel c = some SentimentLabel.neutral)
    ∧ (5 / 100 < c → sentimentLabel c = some SentimentLabel.positive) := by
  unfold sentimentLabel
  refine ⟨fun h => ?_, fun ha hb => ?_, fun h => ?_⟩
  · rw [if_pos ⟨by linarith, h⟩]
  · rw [if_neg (fun hcon => by linarith [hcon.2]), if_pos ⟨ha, hb⟩]
  · rw [if_neg (fun hcon => by linarith [hcon.2]),
      if_neg (fun hcon => by linarith [hcon.2]), if_pos ⟨h, by linarith⟩]

/-- C2, witness: the amended thresholds applied at compound 0. -/
theorem C2_label_thresholds_witness :
    sentimentLabel 0 = some SentimentLabel.neutral :=
  (C2_label_thresholds_amended 0 (by norm_num) (by norm_num)).2.1
    (by norm_num) (by norm_num)

/-- C3: the rows of the returned issue table are pairwise ordered with
descending priority_score, and rows of equal priority_score appear in
ascending cluster-id order (the original pre-sort groupby order), so the
output ordering is the function of the input computed here. -/
theorem C3_table_sorted (df : List ClusteredReview) (kw : List (ℕ × List String)) :
    List.Pairwise rowOrder ((compute_issue_table df kw).getD []) := by
  unfold compute_issue_table
  by_cases he : tableRows df kw = []
  · rw [if_pos he]
    simp
  · rw [if_neg he, Option.getD_some]
    exact sortRows_pairwise (tableRows_cluster_lt df kw)

/-- C4: with fewer than 5 reviews the clusterer skips partitioning and
returns every review in cluster 0 with keyword mapping 0 to ["mixed"],
whatever cluster count was requested, as a normal result. -/
theorem C4_small_input_trivial_cluster (m : KMeansModel) (e : ℕ)
    (df : List ScoredReview) (k : ℕ) (h : df.length < 5) :
    cluster_issues m e df k = (df.map (fun r => (r, 0)), [(0, ["mixed"])]) := by
  simp only [cluster_issues, List.length_map]
  rw [if_pos h]

/-- C4, witness: the one-review fixture with requested K = 9. -/
theorem C4_small_input_trivial_cluster_witness :
    sampleSmall.length < 5
    ∧ cluster_issues constModel 0 sampleSmall 9
        = (sampleSmall.map (fun r => (r, 0)), [(0, ["mixed"])]) :=
  ⟨by decide, C4_small_input_trivial_cluster constModel 0 sampleSmall 9 (by decide)⟩

/-- C5: with at least 5 reviews the effective cluster count, visible as the
size of the returned keyword mapping, is
max(2, min(K_requested, max(2, review_count / 3))) with floor division, and
is at least 2 whatever K was requested. -/
theorem C5_effective_cluster_count (m : KMeansModel) (e : ℕ)
    (df : List ScoredReview) (k : ℕ) (h : 5 ≤ df.length) :
    (cluster_issues m e df k).2.length = max 2 (min k (max 2 (df.length / 3)))
    ∧ 2 ≤ (cluster_issues m e df k).2.length := by
  have hn : ¬ df.length < 5 := not_lt.mpr h
  have hk : (cluster_issues m e df k).2.length = max 2 (min k (max 2 (df.length / 3))) := by
    simp only [cluster_issues, List.length_map]
    rw [if_neg hn]
    simp [effectiveK]
  exact ⟨hk, hk ▸ le_max_left _ _⟩

/-- C5, witness: six reviews with requested K = 3 give effective count 2. -/
theorem C5_effective_cluster_count_witness :
    (cluster_issues constModel 0 sampleSix 3).2.length
        = max 2 (min 3 (max 2 (sampleSix.length / 3)))
    ∧ 2 ≤ (cluster_issues constModel 0 sampleSix 3).2.length :=
  C5_effective_cluster_count constModel 0 sampleSix 3 (by decide)

/-- C6, counterexample: on an empty review collection the shared-analysis
block of app.py skips the pipeline and sets every derived value to None; no
InvalidInput error is raised or surfaced. -/
theorem C6_empty_input_counterexample :
    mainAnalysis (fun _ => 0) constModel 0 [] 6 = AnalysisOutcome.skipped := by
  decide

/-- C6, amended: for every sentiment model, clustering model, entropy and
requested cluster count, the empty review collection makes the pipeline
skip silently (results None, informational prompt), rather than fail with
an error. -/
theorem C6_empty_input_amended (compound : String → ℚ) (m : KMeansModel)
    (e k : ℕ) :
    mainAnalysis compound m e [] k = AnalysisOutcome.skipped := rfl

/-- C7: cluster severity is max(0, (-avg + 1) / 2) of the mean member
compound score, and on means in [-1, 1] it stays in [0, 1], with mean +1
giving 0, mean -1 giving 1 and mean 0 giving 1/2. -/
theorem C7_severity_formula (df : List ClusteredReview) (c : ℕ) (a : ℚ)
    (h1 : -1 ≤ a) (h2 : a ≤ 1) :
    severityOf df c = max 0 ((-(avgOf df c) + 1) / 2)
    ∧ avgOf df c
        = ((memberRows df c).map (fun r => r.sentiment_compound)).sum / (freqOf df c : ℚ)
    ∧ 0 ≤ severityFromAvg a ∧ severityFromAvg a ≤ 1
    ∧ severityFromAvg 1 = 0 ∧ severityFromAvg (-1) = 1 ∧ severityFromAvg 0 = 1 / 2 := by
  refine ⟨rfl, rfl, le_max_left _ _, ?_, by norm_num [severityFromAvg],
    by norm_num [severityFromAvg], by norm_num [severityFromAvg]⟩
  unfold severityFromAvg
  exact max_le (by norm_num) (by linarith)

/-- C7, witness: the severity facts evaluated at mean 0 on the one-review fixture. -/
theorem C7_severity_formula_witness :
    severityOf dfOne 0 = max 0 ((-(avgOf dfOne 0) + 1) / 2)
    ∧ avgOf dfOne 0
        = ((memberRows dfOne 0).map (fun r => r.sentiment_compound)).sum / (freqOf dfOne 0 : ℚ)
    ∧ 0 ≤ severityFromAvg 0 ∧ severityFromAvg 0 ≤ 1
    ∧ severityFromAvg 1 = 0 ∧ severityFromAvg (-1) = 1 ∧ severityFromAvg 0 = 1 / 2 :=
  C7_severity_formula dfOne 0 0 (by norm_num) (by norm_num)

/-- C8: the claim says the scorer returns a result even when the total
review count is 0; the code does avoid the division (freq / total is
guarded by the if total else 0.0 branch) but then sorts the empty row
frame, and pd.DataFrame([]).sort_values("priority_score") raises KeyError,
modelled here by the none result: on the empty input the scorer raises
instead of returning a table. -/
theorem C8_empty_table_error : compute_issue_table [] [] = none := by decide

/-- C9: the clusterer is a deterministic function of its input: with the
random seed pinned to 42 inside cluster_issues, the ambient random state
(entropy) is never consulted, so two runs on identical texts and identical
requested K agree exactly, whatever entropy each run carried. -/
theorem C9_cluster_determinism (m : KMeansModel) (df : List ScoredReview)
    (k e1 e2 : ℕ) :
    cluster_issues m e1 df k = cluster_issues m e2 df k := rfl

end ReviewToAction
